/-
Shallow embedding of the auth-express-mysql session store
(src/unnamed/part_000: class AuthExpressStore), with proofs about its
configuration validation, its CRUD operations over the sessions table,
its expiry filtering, and its connection/callback discipline.

The MySQL table is modeled as an explicit list of rows.  A query-level
failure is injected through an Option QueryError parameter, mirroring the
error argument that the mysql driver passes to every query callback.
JavaScript exceptions that escape an operation (as opposed to errors routed
through the operation callback) are modeled by a dedicated outcome
constructor.
-/
import Mathlib

set_option autoImplicit false
set_option linter.unusedVariables false

namespace AuthExpressMysql

/-- Model of the JavaScript primitive values that flow through the configuration
cascade in the constructor of AuthExpressStore (part_000 lines 81 to 105).
JS numbers are modeled as integers; NaN is kept as a separate value because the
constructor produces it by applying parseInt to an absent environment variable. -/
inductive JSVal where
  | str : String → JSVal
  | num : Int → JSVal
  | nan : JSVal
  | jsBool : Bool → JSVal
  | undef : JSVal
deriving DecidableEq

/-- JS truthiness for the modeled values: empty strings, zero, NaN and
undefined are falsy. -/
def JSVal.truthy : JSVal → Bool
  | .str s => s != ""
  | .num n => n != 0
  | .nan => false
  | .jsBool b => b
  | .undef => false

/-- The JS logical-or operator: the left operand when truthy, else the right. -/
def JSVal.orJS (a b : JSVal) : JSVal :=
  if a.truthy then a else b

/-- The JS typeof operator restricted to the modeled values. -/
def JSVal.typeof : JSVal → String
  | .str _ => "string"
  | .num _ => "number"
  | .nan => "number"
  | .jsBool _ => "boolean"
  | .undef => "undefined"

/-- Value of a list of decimal digit characters, or none on a non-digit. -/
def digitsToNat : List Char → Nat → Option Nat
  | [], acc => some acc
  | c :: cs, acc =>
    if c.isDigit then digitsToNat cs (10 * acc + (c.toNat - 48)) else none

/-- parseInt applied to a string with radix 10, modeled for the strings the
configuration cascade feeds it: a nonempty string of decimal digits parses to
its value, anything else gives NaN. -/
def parseIntOfString (s : String) : JSVal :=
  match s.data with
  | [] => .nan
  | c :: cs =>
    match digitsToNat (c :: cs) 0 with
    | some n => .num (Int.ofNat n)
    | none => .nan

/-- parseInt applied to process.env.DATABASE_PORT (part_000 line 85): an absent
environment variable reads as undefined, and parseInt of undefined is NaN. -/
def parseIntOfEnv : Option String → JSVal
  | none => .nan
  | some s => parseIntOfString s

/-- The process environment variables the constructor consults; every variable
is either absent or a string. -/
structure Env where
  host : Option String := none
  databasePort : Option String := none
  databaseUser : Option String := none
  databasePassword : Option String := none
  databaseName : Option String := none
deriving DecidableEq

/-- Caller-supplied columnNames options; an absent property reads as undefined. -/
structure ColumnOptions where
  sessionID : JSVal := .undef
  expires : JSVal := .undef
  data : JSVal := .undef
  user : JSVal := .undef
deriving DecidableEq

/-- Caller-supplied configOptions; an absent property reads as undefined. -/
structure ConfigOptions where
  host : JSVal := .undef
  port : JSVal := .undef
  user : JSVal := .undef
  password : JSVal := .undef
  database : JSVal := .undef
  tableName : JSVal := .undef
  columnNames : Option ColumnOptions := none
deriving DecidableEq

/-- Reading an environment variable as a JS value. -/
def envVal : Option String → JSVal
  | none => .undef
  | some s => .str s

/-- Optional chaining over the whole configOptions object. -/
def optField (configOptions : Option ConfigOptions) (f : ConfigOptions → JSVal) : JSVal :=
  match configOptions with
  | none => .undef
  | some o => f o

/-- Optional chaining through configOptions and then columnNames. -/
def colField (configOptions : Option ConfigOptions) (f : ColumnOptions → JSVal) : JSVal :=
  match configOptions with
  | none => .undef
  | some o =>
    match o.columnNames with
    | none => .undef
    | some c => f c

/-- The settings object as assembled by the constructor before validation
(part_000 lines 81 to 105): for each field the environment variable wins when
truthy, then the caller-supplied option, then the built-in default. -/
structure RawSettings where
  host : JSVal
  port : JSVal
  user : JSVal
  password : JSVal
  database : JSVal
  tableName : JSVal
  colSessionID : JSVal
  colExpires : JSVal
  colData : JSVal
  colUser : JSVal
deriving DecidableEq

/-- The constructor resolution cascade (part_000 lines 81 to 105), with the
defaults of databaseDefaults and schemaDefaults (part_000 lines 17 to 33). -/
def resolveSettings (env : Env) (configOptions : Option ConfigOptions) : RawSettings :=
  { host := (envVal env.host).orJS ((optField configOptions (·.host)).orJS
      (.str "localhost"))
    port := (parseIntOfEnv env.databasePort).orJS ((optField configOptions (·.port)).orJS
      (.num 3306))
    user := (envVal env.databaseUser).orJS ((optField configOptions (·.user)).orJS
      (.str "auth_express_mysql_test_user"))
    password := (envVal env.databasePassword).orJS
      ((optField configOptions (·.password)).orJS (.str "password123456"))
    database := (envVal env.databaseName).orJS
      ((optField configOptions (·.database)).orJS (.str "auth_express_mysql_testing"))
    tableName := (optField configOptions (·.tableName)).orJS (.str "SESSIONS")
    colSessionID := (colField configOptions (·.sessionID)).orJS (.str "SESSION_ID")
    colExpires := (colField configOptions (·.expires)).orJS (.str "EXPIRES")
    colData := (colField configOptions (·.data)).orJS (.str "DATA")
    colUser := (colField configOptions (·.user)).orJS (.str "USER") }

/-- The error thrown by sanitizeConfiguration: which settings field failed the
check, and the typeof of the offending value as reported in the message. -/
structure ConfigError where
  field : String
  received : String
deriving DecidableEq

/-- The validated settings the store keeps for its whole lifetime.  The port
stays a JS value because the source stores the result of parseInt there, which
is NaN when a NaN slipped through the typeof number check. -/
structure Settings where
  host : String
  port : JSVal
  user : String
  password : String
  database : String
  tableName : String
  colSessionID : String
  colExpires : String
  colData : String
  colUser : String
deriving DecidableEq

/-- One typeof string check of sanitizeConfiguration. -/
def requireString (fieldName : String) (v : JSVal) : Except ConfigError String :=
  match v with
  | .str s => .ok s
  | other => .error ⟨fieldName, other.typeof⟩

/-- parseInt as reapplied to the already-validated port (part_000 line 134);
only number values reach it, and parseInt of NaN is NaN again. -/
def parseIntOfNumber : JSVal → JSVal
  | .num n => .num n
  | _ => .nan

/-- sanitizeConfiguration (part_000 lines 119 to 172): typeof checks in source
order.  The port check demands typeof number even though the error text speaks
of coercibility; the accepted port is then passed through parseInt. -/
def sanitizeConfiguration (r : RawSettings) : Except ConfigError Settings := do
  let host ← requireString "host" r.host
  let port ←
    match r.port with
    | .num n => Except.ok (parseIntOfNumber (.num n))
    | .nan => Except.ok (parseIntOfNumber .nan)
    | other => Except.error (⟨"port", other.typeof⟩ : ConfigError)
  let user ← requireString "user" r.user
  let password ← requireString "password" r.password
  let database ← requireString "database" r.database
  let tableName ← requireString "tableName" r.tableName
  let colSessionID ← requireString "columnNames.sessionID" r.colSessionID
  let colExpires ← requireString "columnNames.expires" r.colExpires
  let colData ← requireString "columnNames.data" r.colData
  let colUser ← requireString "columnNames.user" r.colUser
  return { host, port, user, password, database, tableName,
           colSessionID, colExpires, colData, colUser }

/-- The constructor (part_000 lines 77 to 110): resolve the cascade, then
validate; a validation failure is thrown synchronously, modeled as error. -/
def construct (env : Env) (configOptions : Option ConfigOptions) :
    Except ConfigError Settings :=
  sanitizeConfiguration (resolveSettings env configOptions)

/-- The expiry of a session cookie: the epoch-millisecond value of the Date in
session.cookie.expires.  Date.parse of the serialized Date is this value, and
the Date rebuilt from it by get denotes the same instant, so the round trip
through serialization is the identity at this level of the model. -/
structure Cookie where
  expires : Int
deriving DecidableEq

/-- A session payload as handed to set and touch.  cookie none models a payload
without a cookie field; passportUser models session.passport?.user; rest stands
for all remaining serialized properties, carried verbatim. -/
structure Session where
  cookie : Option Cookie
  passportUser : Option String
  rest : String
deriving DecidableEq

/-- Contents of the data column.  json s is the exact text JSON.stringify
produced from session s, and JSON.parse recovers s from it; raw covers any
other stored text, on which JSON.parse fails. -/
inductive StoredData where
  | json : Session → StoredData
  | raw : String → StoredData
deriving DecidableEq

/-- One row of the sessions table, with the four columns createTable declares
(part_000 lines 528 to 540). -/
structure Row where
  sessionID : String
  data : StoredData
  expires : Int
  user : String
deriving DecidableEq

/-- The sessions table. -/
abbrev Db := List Row

/-- A database-reported failure handed to a query callback. -/
structure QueryError where
  message : String
deriving DecidableEq

/-- A JavaScript exception escaping an operation instead of being routed
through its callback. -/
inductive JSError where
  | typeError : String → JSError
  | parseError : String → JSError
deriving DecidableEq

/-- How one store operation concludes: either an exception escapes to the
caller, or finalCallback runs and passes the given error and data arguments to
the continuation. -/
inductive OpResult (α : Type) where
  | threw : JSError → OpResult α
  | completed : Option QueryError → Option α → OpResult α
deriving DecidableEq

/-- Everything one operation did: the table afterwards, how many times
closeDatabaseConnection was invoked, and how the operation concluded. -/
structure OpTrace (α : Type) where
  db : Db
  closes : Nat
  result : OpResult α
deriving DecidableEq

/-- The connection state the mysql driver exposes, as consulted by
closeDatabaseConnection (part_000 line 203). -/
inductive ConnState where
  | disconnected
  | connected
deriving DecidableEq

/-- closeDatabaseConnection (part_000 lines 202 to 207): destroy the connection
only when its state is not disconnected.  The boolean records whether destroy
was actually invoked. -/
def closeDatabaseConnection : ConnState → ConnState × Bool
  | .disconnected => (.disconnected, false)
  | .connected => (.disconnected, true)

/-- The arguments a continuation receives from finalCallback. -/
structure CallbackCall (α : Type) where
  error : Option QueryError
  data : Option α
deriving DecidableEq

/-- finalCallback (part_000 lines 218 to 225): a non-function callback is
replaced by an empty one, the connection is closed first, and then the callback
receives the error and data arguments.  The returned option is none exactly
when no real continuation was invoked. -/
def finalCallback {α : Type} (hasFunctionCallback : Bool) (conn : ConnState)
    (error : Option QueryError) (data : Option α) :
    ConnState × Option (CallbackCall α) :=
  ((closeDatabaseConnection conn).1,
    if hasFunctionCallback then some ⟨error, data⟩ else none)

/-- A row whose data column get can deserialize without throwing: valid JSON of
a session that has a cookie field. -/
def Row.wellFormed (r : Row) : Bool :=
  match r.data with
  | .json s => s.cookie.isSome
  | .raw _ => false

/-- The WHERE clause of get (part_000 line 314): the row key equals the
requested session ID and the stored expiry is at or after the query time. -/
def rowMatches (sessionID : String) (now : Int) (r : Row) : Bool :=
  r.sessionID == sessionID && decide (now ≤ r.expires)

namespace AuthExpressStore

/-- get (part_000 lines 313 to 340).  The select keeps rows matching the ID
with expiry at or after now.  On exactly one row the code reads the literal
property DATA of the row object; when the configured data column name differs,
that property is undefined and JSON.parse throws.  Otherwise it parses the
stored text and rebuilds the cookie expiry Date; a payload without a cookie
field makes the rebuild throw a TypeError.  The thrown branches never reach
finalCallback, so the connection is not closed there. -/
def get (st : Settings) (db : Db) (now : Int) (sessionID : String)
    (qerr : Option QueryError) : OpTrace Session :=
  match qerr with
  | some e => ⟨db, 1, .completed (some e) none⟩
  | none =>
    match db.filter (rowMatches sessionID now) with
    | [r] =>
      if st.colData = "DATA" then
        match r.data with
        | .json s =>
          match s.cookie with
          | some _ => ⟨db, 1, .completed none (some s)⟩
          | none => ⟨db, 0, .threw (.typeError "cannot read expires of undefined")⟩
        | .raw _ => ⟨db, 0, .threw (.parseError "unexpected token in JSON")⟩
      else ⟨db, 0, .threw (.parseError "undefined is not valid JSON")⟩
    | _ => ⟨db, 1, .completed none none⟩

/-- set (part_000 lines 372 to 398): INSERT IGNORE of the serialized session.
Reading session.cookie.expires throws a TypeError when the payload has no
cookie field, before any connection is opened.  Under INSERT IGNORE a
duplicate primary key leaves the existing row untouched with no error, and a
NULL bound to the NOT NULL user column (an absent session.passport?.user) is
replaced by the implicit default of varchar, the empty string, with only a
warning; these are the documented MySQL semantics of the IGNORE keyword. -/
def set (st : Settings) (db : Db) (sessionID : String) (session : Session)
    (qerr : Option QueryError) : OpTrace Unit :=
  match session.cookie with
  | none => ⟨db, 0, .threw (.typeError "cannot read expires of undefined")⟩
  | some ck =>
    match qerr with
    | some e => ⟨db, 1, .completed (some e) none⟩
    | none =>
      if db.any (fun r => r.sessionID == sessionID) then
        ⟨db, 1, .completed none none⟩
      else
        ⟨db ++ [⟨sessionID, .json session, ck.expires, session.passportUser.getD ""⟩],
          1, .completed none none⟩

/-- touch (part_000 lines 407 to 431): UPDATE of the data and expires columns
of every row matching the session ID.  Like set it reads
session.cookie.expires before connecting, throwing on a cookieless payload. -/
def touch (st : Settings) (db : Db) (sessionID : String) (session : Session)
    (qerr : Option QueryError) : OpTrace Unit :=
  match session.cookie with
  | none => ⟨db, 0, .threw (.typeError "cannot read expires of undefined")⟩
  | some ck =>
    match qerr with
    | some e => ⟨db, 1, .completed (some e) none⟩
    | none =>
      ⟨db.map (fun r =>
          if r.sessionID == sessionID then
            { r with data := .json session, expires := ck.expires }
          else r),
        1, .completed none none⟩

/-- all (part_000 lines 232 to 247): every row whose expiry is at or after
now, passed to the continuation as the result set. -/
def all (st : Settings) (db : Db) (now : Int) (qerr : Option QueryError) :
    OpTrace (List Row) :=
  match qerr with
  | some e => ⟨db, 1, .completed (some e) none⟩
  | none => ⟨db, 1, .completed none (some (db.filter (fun r => decide (now ≤ r.expires))))⟩

/-- expired (part_000 lines 438 to 453): every row whose expiry is before now. -/
def expired (st : Settings) (db : Db) (now : Int) (qerr : Option QueryError) :
    OpTrace (List Row) :=
  match qerr with
  | some e => ⟨db, 1, .completed (some e) none⟩
  | none => ⟨db, 1, .completed none (some (db.filter (fun r => decide (r.expires < now))))⟩

/-- length (part_000 lines 347 to 362): the count of unexpired rows, read from
the LEN field of the single count row. -/
def length (st : Settings) (db : Db) (now : Int) (qerr : Option QueryError) :
    OpTrace Nat :=
  match qerr with
  | some e => ⟨db, 1, .completed (some e) none⟩
  | none =>
    ⟨db, 1, .completed none (some (db.filter (fun r => decide (now ≤ r.expires))).length)⟩

/-- expiredLength (part_000 lines 460 to 475): the count of expired rows. -/
def expiredLength (st : Settings) (db : Db) (now : Int) (qerr : Option QueryError) :
    OpTrace Nat :=
  match qerr with
  | some e => ⟨db, 1, .completed (some e) none⟩
  | none =>
    ⟨db, 1, .completed none (some (db.filter (fun r => decide (r.expires < now))).length)⟩

/-- clear (part_000 lines 254 to 268): TRUNCATE of the whole table; the
success continuation receives no arguments at all. -/
def clear (st : Settings) (db : Db) (qerr : Option QueryError) : OpTrace Unit :=
  match qerr with
  | some e => ⟨db, 1, .completed (some e) none⟩
  | none => ⟨[], 1, .completed none none⟩

/-- destroy (part_000 lines 276 to 302): DELETE of the row with the given
session ID; deleting a missing ID only logs the zero affected rows. -/
def destroy (st : Settings) (db : Db) (sessionID : String)
    (qerr : Option QueryError) : OpTrace Unit :=
  match qerr with
  | some e => ⟨db, 1, .completed (some e) none⟩
  | none => ⟨db.filter (fun r => !(r.sessionID == sessionID)), 1, .completed none none⟩

/-- expiredClear (part_000 lines 482 to 496): DELETE of every row whose expiry
is before now. -/
def expiredClear (st : Settings) (db : Db) (now : Int) (qerr : Option QueryError) :
    OpTrace Unit :=
  match qerr with
  | some e => ⟨db, 1, .completed (some e) none⟩
  | none => ⟨db.filter (fun r => decide (now ≤ r.expires)), 1, .completed none none⟩

/-- destroyUser (part_000 lines 506 to 520): DELETE of every row whose user
column equals the given user. -/
def destroyUser (st : Settings) (db : Db) (user : String)
    (qerr : Option QueryError) : OpTrace Unit :=
  match qerr with
  | some e => ⟨db, 1, .completed (some e) none⟩
  | none => ⟨db.filter (fun r => !(r.user == user)), 1, .completed none none⟩

/-- createTable (part_000 lines 528 to 551): CREATE TABLE IF NOT EXISTS with
the four fixed column types; it leaves existing rows alone. -/
def createTable (st : Settings) (db : Db) (qerr : Option QueryError) : OpTrace Unit :=
  match qerr with
  | some e => ⟨db, 1, .completed (some e) none⟩
  | none => ⟨db, 1, .completed none none⟩

end AuthExpressStore

/-- The settings produced by a default construction: databaseDefaults and
schemaDefaults of part_000 lines 17 to 33. -/
def defaultSettings : Settings :=
  { host := "localhost", port := .num 3306, user := "auth_express_mysql_test_user",
    password := "password123456", database := "auth_express_mysql_testing",
    tableName := "SESSIONS", colSessionID := "SESSION_ID", colExpires := "EXPIRES",
    colData := "DATA", colUser := "USER" }

/-- A concrete well-formed payload used to instantiate the theorems. -/
def sessA : Session := ⟨some ⟨2000⟩, some "alice", "payloadA"⟩

/-- A second concrete well-formed payload with a later expiry. -/
def sessB : Session := ⟨some ⟨3000⟩, some "bob", "payloadB"⟩

/-- A payload without a cookie field, as express-session never produces but a
direct caller can. -/
def noCookieSession : Session := ⟨none, none, "payloadNoCookie"⟩

/-- A payload carrying no passport user reference. -/
def noUserSession : Session := ⟨some ⟨2000⟩, none, "payloadNoUser"⟩

/-- Settings whose data column is renamed away from the default DATA. -/
def altColumnSettings : Settings :=
  { defaultSettings with colData := "SESSION_DATA" }

/-- A concrete stored row matching sessA. -/
def rowA : Row := ⟨"sid1", .json sessA, 2000, "alice"⟩

/-- A concrete expired row. -/
def rowOld : Row := ⟨"sid0", .json (⟨some ⟨-1000⟩, some "carol", "payloadOld"⟩ : Session), -1000, "carol"⟩

open AuthExpressStore

/-- Unfolding of the WHERE clause of get as a proposition. -/
theorem rowMatches_iff (sessionID : String) (now : Int) (r : Row) :
    rowMatches sessionID now r = true ↔ (r.sessionID = sessionID ∧ now ≤ r.expires) := by
  simp [rowMatches]

/-- No row of the table carries the requested ID, so the select of get returns
no rows. -/
theorem filter_rowMatches_eq_nil {db : Db} {sessionID : String} (now : Int)
    (h : ∀ r ∈ db, r.sessionID ≠ sessionID) :
    db.filter (rowMatches sessionID now) = [] := by
  rw [List.filter_eq_nil_iff]
  intro r hr hm
  exact h r hr ((rowMatches_iff sessionID now r).mp hm).1

/-- The duplicate test of the modeled INSERT IGNORE is negative on a table
holding no row with the requested ID. -/
theorem any_sessionID_eq_false {db : Db} {sessionID : String}
    (h : ∀ r ∈ db, r.sessionID ≠ sessionID) :
    db.any (fun r => r.sessionID == sessionID) = false := by
  rw [List.any_eq_false]
  intro r hr
  simp [h r hr]

/-- A map that fixes every member of a list is the identity on it. -/
theorem list_map_id_of_mem {α : Type} (l : List α) (g : α → α)
    (h : ∀ a ∈ l, g a = a) : l.map g = l := by
  induction l with
  | nil => rfl
  | cons a t ih =>
    rw [List.map_cons, h a (List.mem_cons_self a t),
      ih (fun x hx => h x (List.mem_cons_of_mem a hx))]

/-- set on a table with no row for the ID appends exactly one row built from
the payload and reports success; the user column receives the passport user or,
when that is absent, the implicit default empty string. -/
theorem set_fresh (st : Settings) {db : Db} {sessionID : String} (s : Session)
    (ck : Cookie) (hck : s.cookie = some ck)
    (hfresh : ∀ r ∈ db, r.sessionID ≠ sessionID) :
    set st db sessionID s none =
      ⟨db ++ [⟨sessionID, .json s, ck.expires, s.passportUser.getD ""⟩], 1,
        .completed none none⟩ := by
  simp [AuthExpressStore.set, hck, any_sessionID_eq_false hfresh]

/-- Appending a matching unexpired row to a table with no row for the ID makes
the select of get return exactly that row. -/
theorem filter_append_single (db : Db) (sessionID : String) (now : Int) (r : Row)
    (hfresh : ∀ x ∈ db, x.sessionID ≠ sessionID) (hsid : r.sessionID = sessionID)
    (hexp : now ≤ r.expires) :
    (db ++ [r]).filter (rowMatches sessionID now) = [r] := by
  rw [List.filter_append, filter_rowMatches_eq_nil now hfresh]
  simp [rowMatches, hsid, hexp]

/-- When the select of get finds exactly one row whose stored text deserializes
to a session with a cookie, and the data column has its default name, get hands
that session to the continuation with no error. -/
theorem get_found (st : Settings) {db : Db} {sessionID : String} {now : Int}
    (r : Row) (s : Session) (ck : Cookie)
    (hf : db.filter (rowMatches sessionID now) = [r]) (hdata : r.data = .json s)
    (hck : s.cookie = some ck) (hcol : st.colData = "DATA") :
    get st db now sessionID none = ⟨db, 1, .completed none (some s)⟩ := by
  simp [AuthExpressStore.get, hf, hcol, hdata, hck]

/-- C1: insert-ignore law.  For a session ID with no pre-existing row and two
payloads A and B, set of A and then set of B both report no error, the second
set leaves the table exactly as the first left it, and a get before the expiry
of A returns a payload equal to A: set never overwrites an existing row
(part_000 lines 372 to 398, INSERT IGNORE). -/
theorem set_insert_ignore (st : Settings) (db : Db) (sessionID : String)
    (A B : Session) (ckA ckB : Cookie) (hA : A.cookie = some ckA)
    (hB : B.cookie = some ckB) (hfresh : ∀ r ∈ db, r.sessionID ≠ sessionID)
    (now : Int) (hnow : now ≤ ckA.expires) (hcol : st.colData = "DATA") :
    (set st db sessionID A none).result = .completed none none ∧
    (set st (set st db sessionID A none).db sessionID B none).result =
      .completed none none ∧
    (set st (set st db sessionID A none).db sessionID B none).db =
      (set st db sessionID A none).db ∧
    (get st (set st (set st db sessionID A none).db sessionID B none).db
        now sessionID none).result = .completed none (some A) := by
  have h1 := set_fresh st A ckA hA hfresh
  have hanyA : (db ++ [(⟨sessionID, .json A, ckA.expires,
      A.passportUser.getD ""⟩ : Row)]).any (fun r => r.sessionID == sessionID) = true := by
    simp
  have h2 : set st (db ++ [(⟨sessionID, .json A, ckA.expires,
      A.passportUser.getD ""⟩ : Row)]) sessionID B none =
      ⟨db ++ [⟨sessionID, .json A, ckA.expires, A.passportUser.getD ""⟩], 1,
        .completed none none⟩ := by
    simp [AuthExpressStore.set, hB, hanyA]
  have hfilter := filter_append_single db sessionID now
    ⟨sessionID, .json A, ckA.expires, A.passportUser.getD ""⟩ hfresh rfl hnow
  have h3 := get_found st ⟨sessionID, .json A, ckA.expires, A.passportUser.getD ""⟩
    A ckA hfilter rfl hA hcol
  simp [h1, h2, h3]

/-- Witness for C1 at concrete inputs: two sets of a fresh session ID followed
by a get before expiry return the first payload. -/
theorem set_insert_ignore_witness :
    (get defaultSettings
        (set defaultSettings
          (set defaultSettings [] "sid" sessA none).db "sid" sessB none).db
        1000 "sid" none).result = .completed none (some sessA) :=
  (set_insert_ignore defaultSettings [] "sid" sessA sessB ⟨2000⟩ ⟨3000⟩ rfl rfl
    (by simp) 1000 (by decide) rfl).2.2.2

/-- C4: round trip.  For a payload with a cookie expiry and a session ID with
no pre-existing row, set followed by get at any time not after that expiry
hands the continuation a payload equal to the one stored. -/
theorem set_get_roundtrip (st : Settings) (db : Db) (sessionID : String)
    (p : Session) (ck : Cookie) (hp : p.cookie = some ck)
    (hfresh : ∀ r ∈ db, r.sessionID ≠ sessionID)
    (now : Int) (hnow : now ≤ ck.expires) (hcol : st.colData = "DATA") :
    (get st (set st db sessionID p none).db now sessionID none).result =
      .completed none (some p) := by
  have h1 := set_fresh st p ck hp hfresh
  have hfilter := filter_append_single db sessionID now
    ⟨sessionID, .json p, ck.expires, p.passportUser.getD ""⟩ hfresh rfl hnow
  have h3 := get_found st ⟨sessionID, .json p, ck.expires, p.passportUser.getD ""⟩
    p ck hfilter rfl hp hcol
  simp [h1, h3]

/-- Witness for C4 at concrete inputs. -/
theorem set_get_roundtrip_witness :
    (get defaultSettings (set defaultSettings [] "sid4" sessB none).db
        2500 "sid4" none).result = .completed none (some sessB) :=
  set_get_roundtrip defaultSettings [] "sid4" sessB ⟨3000⟩ rfl (by simp)
    2500 (by decide) rfl

/-- C5: touch-overwrite law.  After set of payload A under a fresh session ID,
touch with payload B reports no error and a get before the expiry of B returns
B, because the UPDATE of touch does overwrite the data and expires columns
(part_000 lines 407 to 431); and a touch whose ID matches no row leaves the
table unchanged and reports no error. -/
theorem touch_overwrites (st : Settings) (db : Db) (sessionID : String)
    (A B : Session) (ckA ckB : Cookie) (hA : A.cookie = some ckA)
    (hB : B.cookie = some ckB) (hfresh : ∀ r ∈ db, r.sessionID ≠ sessionID)
    (now : Int) (hnow : now ≤ ckB.expires) (hcol : st.colData = "DATA") :
    ((touch st (set st db sessionID A none).db sessionID B none).result =
        .completed none none ∧
      (get st (touch st (set st db sessionID A none).db sessionID B none).db
          now sessionID none).result = .completed none (some B)) ∧
    ((touch st db sessionID B none).db = db ∧
      (touch st db sessionID B none).result = .completed none none) := by
  have h1 := set_fresh st A ckA hA hfresh
  have hmapdb : db.map (fun r => if r.sessionID = sessionID then
      { r with data := StoredData.json B, expires := ckB.expires } else r) = db :=
    list_map_id_of_mem db _ (fun r hr => by simp [hfresh r hr])
  have hmap2 : (db ++ [(⟨sessionID, .json A, ckA.expires,
      A.passportUser.getD ""⟩ : Row)]).map (fun r => if r.sessionID = sessionID then
        { r with data := StoredData.json B, expires := ckB.expires } else r) =
      db ++ [⟨sessionID, .json B, ckB.expires, A.passportUser.getD ""⟩] := by
    rw [List.map_append, hmapdb]
    simp
  have h2 : touch st (db ++ [(⟨sessionID, .json A, ckA.expires,
      A.passportUser.getD ""⟩ : Row)]) sessionID B none =
      ⟨db ++ [⟨sessionID, .json B, ckB.expires, A.passportUser.getD ""⟩], 1,
        .completed none none⟩ := by
    simp [AuthExpressStore.touch, hB, hmap2]
  have hfilter := filter_append_single db sessionID now
    ⟨sessionID, .json B, ckB.expires, A.passportUser.getD ""⟩ hfresh rfl hnow
  have h3 := get_found st ⟨sessionID, .json B, ckB.expires, A.passportUser.getD ""⟩
    B ckB hfilter rfl hB hcol
  have h4 : touch st db sessionID B none = ⟨db, 1, .completed none none⟩ := by
    simp [AuthExpressStore.touch, hB, hmapdb]
  simp [h1, h2, h3, h4]

/-- Witness for C5 at concrete inputs: set then touch then get returns the
touched payload. -/
theorem touch_overwrites_witness :
    (get defaultSettings
        (touch defaultSettings (set defaultSettings [] "sid5" sessA none).db
          "sid5" sessB none).db 2500 "sid5" none).result =
      .completed none (some sessB) :=
  ((touch_overwrites defaultSettings [] "sid5" sessA sessB ⟨2000⟩ ⟨3000⟩ rfl rfl
    (by simp) 2500 (by decide) rfl).1).2

/-- With pairwise distinct session IDs the select of get returns either no row
or exactly one matching unexpired row. -/
theorem filter_rowMatches_cases (db : Db) (sessionID : String) (now : Int)
    (hnodup : (db.map Row.sessionID).Nodup) :
    db.filter (rowMatches sessionID now) = [] ∨
    ∃ r, db.filter (rowMatches sessionID now) = [r] ∧ r ∈ db ∧
      r.sessionID = sessionID ∧ now ≤ r.expires := by
  cases hf : db.filter (rowMatches sessionID now) with
  | nil => exact Or.inl rfl
  | cons r tail =>
    have hr : r ∈ db.filter (rowMatches sessionID now) := by
      rw [hf]; exact List.mem_cons_self r tail
    have hr2 := List.mem_filter.mp hr
    have hm := (rowMatches_iff sessionID now r).mp hr2.2
    cases tail with
    | nil => exact Or.inr ⟨r, rfl, hr2.1, hm.1, hm.2⟩
    | cons r2 tail2 =>
      exfalso
      have hs : List.Sublist ((db.filter (rowMatches sessionID now)).map Row.sessionID)
          (db.map Row.sessionID) := List.Sublist.map Row.sessionID (List.filter_sublist db)
      have hnd2 : ((db.filter (rowMatches sessionID now)).map Row.sessionID).Nodup :=
        List.Nodup.sublist hs hnodup
      have hr2mem : r2 ∈ db.filter (rowMatches sessionID now) := by
        rw [hf]; exact List.mem_cons_of_mem r (List.mem_cons_self r2 tail2)
      have hm2 := (rowMatches_iff sessionID now r2).mp (List.mem_filter.mp hr2mem).2
      rw [hf] at hnd2
      simp [hm.1, hm2.1] at hnd2

/-- C2: expiry-aware get.  With pairwise distinct session IDs and
deserializable data in the relevant row, get hands the continuation a payload
exactly when a row with the requested ID exists and its expiry is at or after
the query time; in every other case it hands the continuation an absent result
and no error; and the payload handed over is the deserialization of the stored
row (part_000 lines 313 to 340). -/
theorem get_expiry_semantics (st : Settings) (db : Db) (now : Int)
    (sessionID : String) (hcol : st.colData = "DATA")
    (hnodup : (db.map Row.sessionID).Nodup)
    (hwf : ∀ r ∈ db, r.sessionID = sessionID → now ≤ r.expires →
      r.wellFormed = true) :
    ((∃ s, (get st db now sessionID none).result = .completed none (some s)) ↔
      ∃ r ∈ db, r.sessionID = sessionID ∧ now ≤ r.expires) ∧
    ((¬ ∃ r ∈ db, r.sessionID = sessionID ∧ now ≤ r.expires) →
      (get st db now sessionID none).result = .completed none none) ∧
    (∀ r ∈ db, r.sessionID = sessionID → now ≤ r.expires → ∀ s,
      r.data = .json s →
      (get st db now sessionID none).result = .completed none (some s)) := by
  rcases filter_rowMatches_cases db sessionID now hnodup with hf | ⟨r, hf, hmem, hsid, hexp⟩
  · have hnone : ∀ x ∈ db, ¬(x.sessionID = sessionID ∧ now ≤ x.expires) := by
      intro x hx hc
      have hmx : x ∈ db.filter (rowMatches sessionID now) :=
        List.mem_filter.mpr ⟨hx, (rowMatches_iff sessionID now x).mpr hc⟩
      rw [hf] at hmx
      exact absurd hmx (List.not_mem_nil x)
    have hres : (get st db now sessionID none).result = .completed none none := by
      simp [AuthExpressStore.get, hf]
    refine ⟨?_, fun _ => hres, ?_⟩
    · constructor
      · rintro ⟨s, hs⟩
        rw [hres] at hs
        simp at hs
      · rintro ⟨x, hx, hc⟩
        exact absurd hc (hnone x hx)
    · intro x hx h1 h2 s hs
      exact absurd ⟨h1, h2⟩ (hnone x hx)
  · have hwfr := hwf r hmem hsid hexp
    cases hdata : r.data with
    | raw t => simp [Row.wellFormed, hdata] at hwfr
    | json s =>
      have hcs : s.cookie.isSome = true := by
        simpa [Row.wellFormed, hdata] using hwfr
      rcases hck2 : s.cookie with _ | ck2
      · rw [hck2] at hcs; simp at hcs
      · have hres := get_found st r s ck2 hf hdata hck2 hcol
        have hresr : (get st db now sessionID none).result =
            .completed none (some s) := by rw [hres]
        refine ⟨?_, ?_, ?_⟩
        · exact ⟨fun _ => ⟨r, hmem, hsid, hexp⟩, fun _ => ⟨s, hresr⟩⟩
        · intro hno
          exact absurd ⟨r, hmem, hsid, hexp⟩ hno
        · intro x hx h1 h2 s2 hs2
          have hxr : x = r := List.inj_on_of_nodup_map hnodup hx hmem (by rw [h1, hsid])
          subst hxr
          rw [hdata] at hs2
          injection hs2 with h
          exact h ▸ hresr

/-- Witness for C2 at concrete inputs: over a one-row table the payload comes
back exactly when the matching unexpired row exists. -/
theorem get_expiry_semantics_witness :
    (∃ s, (get defaultSettings [rowA] 0 "sid1" none).result =
      .completed none (some s)) ↔
    ∃ r ∈ [rowA], r.sessionID = "sid1" ∧ (0 : Int) ≤ r.expires :=
  (get_expiry_semantics defaultSettings [rowA] 0 "sid1" rfl (by decide)
    (by decide)).1

/-- Unexpired and expired rows count up to the whole table. -/
theorem filter_expiry_partition_length (db : Db) (now : Int) :
    (db.filter (fun r => decide (now ≤ r.expires))).length +
      (db.filter (fun r => decide (r.expires < now))).length = db.length := by
  induction db with
  | nil => rfl
  | cons a t ih =>
    by_cases h : now ≤ a.expires
    · simp [List.filter_cons, h, not_lt.mpr h]
      omega
    · simp [List.filter_cons, h, not_le.mp h]
      omega

/-- The select of get returns no rows when the only row carrying the ID is
expired. -/
theorem filter_rowMatches_eq_nil_of_expired {db : Db} {r : Row} (now : Int)
    (hnodup : (db.map Row.sessionID).Nodup) (hr : r ∈ db)
    (hexp : r.expires < now) :
    db.filter (rowMatches r.sessionID now) = [] := by
  rw [List.filter_eq_nil_iff]
  intro x hx hm
  have hm2 := (rowMatches_iff r.sessionID now x).mp hm
  have hxr : x = r := List.inj_on_of_nodup_map hnodup hx hr hm2.1
  rw [hxr] at hm2
  exact absurd hm2.2 (not_le.mpr hexp)

/-- C6: expiry partition.  all returns exactly the rows with expiry at or
after now (an empty collection, with no error, when there are none), expired
returns exactly the complement, length and expiredLength count the two parts,
which sum to the whole table; and every expired row is excluded from the
results of all and get but included in the result of expired (part_000 lines
232 to 247, 313 to 340, 347 to 362, 438 to 453, 460 to 475). -/
theorem expiry_partition (st : Settings) (db : Db) (now : Int)
    (hnodup : (db.map Row.sessionID).Nodup) :
    (all st db now none).result =
      .completed none (some (db.filter (fun r => decide (now ≤ r.expires)))) ∧
    (expired st db now none).result =
      .completed none (some (db.filter (fun r => decide (r.expires < now)))) ∧
    (length st db now none).result =
      .completed none (some (db.filter (fun r => decide (now ≤ r.expires))).length) ∧
    (expiredLength st db now none).result =
      .completed none (some (db.filter (fun r => decide (r.expires < now))).length) ∧
    (db.filter (fun r => decide (now ≤ r.expires))).length +
      (db.filter (fun r => decide (r.expires < now))).length = db.length ∧
    (∀ r ∈ db, r.expires < now →
      (∃ L, (all st db now none).result = .completed none (some L) ∧ r ∉ L) ∧
      (∃ L, (expired st db now none).result = .completed none (some L) ∧ r ∈ L) ∧
      (get st db now r.sessionID none).result = .completed none none) ∧
    (db.filter (fun r => decide (now ≤ r.expires)) = [] →
      (all st db now none).result = .completed none (some ([] : List Row))) := by
  refine ⟨rfl, rfl, rfl, rfl, filter_expiry_partition_length db now, ?_, ?_⟩
  · intro r hr hexp
    refine ⟨⟨_, rfl, ?_⟩, ⟨_, rfl, ?_⟩, ?_⟩
    · simp only [List.mem_filter, decide_eq_true_eq, not_and]
      exact fun _ => not_le.mpr hexp
    · simp [List.mem_filter, hr, hexp]
    · have hf := filter_rowMatches_eq_nil_of_expired now hnodup hr hexp
      simp [AuthExpressStore.get, hf]
  · intro h
    simp [AuthExpressStore.all, h]

/-- Witness for C6 at concrete inputs: a get on an expired row of a two-row
table hands the continuation an absent result with no error. -/
theorem expiry_partition_witness :
    (get defaultSettings [rowA, rowOld] 0 "sid0" none).result =
      .completed none none :=
  ((expiry_partition defaultSettings [rowA, rowOld] 0 (by decide)).2.2.2.2.2.1
    rowOld (by decide) (by decide)).2.2

/-- C3 (code bug): a set whose payload has no cookie field throws a TypeError
synchronously, because part_000 line 374 reads session.cookie.expires with no
guard; a get over stored text that is not valid JSON throws inside the query
callback at part_000 line 334; and touch throws like set at line 409.  None of
these failures reach the continuation error slot, contradicting the stated
contract and the class documentation that issues arising during operation fail
gracefully. -/
theorem operations_throw_on_malformed_input :
    (set defaultSettings [] "abc" noCookieSession none).result =
      .threw (.typeError "cannot read expires of undefined") ∧
    (get defaultSettings [⟨"bad", .raw "not json", 5000, "u"⟩] 0 "bad"
        none).result = .threw (.parseError "unexpected token in JSON") ∧
    (touch defaultSettings [] "abc" noCookieSession none).result =
      .threw (.typeError "cannot read expires of undefined") := ⟨rfl, rfl, rfl⟩

/-- C7: callback and connection discipline.  For every operation, on success,
on an injected query failure and on zero-row results alike, the trace shows
exactly one invocation of closeDatabaseConnection, happening inside
finalCallback before the continuation observes the outcome; the continuation
receives an error argument exactly when the query failed, and data only for
operations with a natural result.  finalCallback replaces a missing or
non-function continuation by a no-op while still closing the connection first,
and closing an already-closed or never-opened connection destroys nothing. -/
theorem ops_close_once_then_callback (st : Settings) (db : Db) (now : Int)
    (sessionID u : String) (s : Session) (ck : Cookie) (q : Option QueryError)
    (conn : ConnState) (e : Option QueryError) (d : Option Unit)
    (hck : s.cookie = some ck) (hcol : st.colData = "DATA")
    (hwf : ∀ r ∈ db, r.wellFormed = true) :
    ((set st db sessionID s q).closes = 1 ∧
      (set st db sessionID s q).result = .completed q none) ∧
    ((touch st db sessionID s q).closes = 1 ∧
      (touch st db sessionID s q).result = .completed q none) ∧
    ((destroy st db sessionID q).closes = 1 ∧
      (destroy st db sessionID q).result = .completed q none) ∧
    ((get st db now sessionID q).closes = 1 ∧
      ∃ res, (get st db now sessionID q).result = .completed q res ∧
        (q.isSome → res = none)) ∧
    ((all st db now q).closes = 1 ∧
      ∃ res, (all st db now q).result = .completed q res ∧
        (q.isSome → res = none)) ∧
    ((expired st db now q).closes = 1 ∧
      ∃ res, (expired st db now q).result = .completed q res ∧
        (q.isSome → res = none)) ∧
    ((length st db now q).closes = 1 ∧
      ∃ res, (length st db now q).result = .completed q res ∧
        (q.isSome → res = none)) ∧
    ((expiredLength st db now q).closes = 1 ∧
      ∃ res, (expiredLength st db now q).result = .completed q res ∧
        (q.isSome → res = none)) ∧
    ((clear st db q).closes = 1 ∧ (clear st db q).result = .completed q none) ∧
    ((expiredClear st db now q).closes = 1 ∧
      (expiredClear st db now q).result = .completed q none) ∧
    ((destroyUser st db u q).closes = 1 ∧
      (destroyUser st db u q).result = .completed q none) ∧
    ((createTable st db q).closes = 1 ∧
      (createTable st db q).result = .completed q none) ∧
    (finalCallback false conn e d).2 = none ∧
    (finalCallback true conn e d).2 = some ⟨e, d⟩ ∧
    (finalCallback false conn e d).1 = ConnState.disconnected ∧
    closeDatabaseConnection (closeDatabaseConnection conn).1 =
      (ConnState.disconnected, false) ∧
    closeDatabaseConnection ConnState.disconnected =
      (ConnState.disconnected, false) := by
  have hfc1 : (finalCallback (α := Unit) false conn e d).2 = none := by
    simp [finalCallback]
  have hfc2 : (finalCallback true conn e d).2 = some ⟨e, d⟩ := by
    simp [finalCallback]
  have hfc3 : (finalCallback (α := Unit) false conn e d).1 = ConnState.disconnected := by
    cases conn <;> simp [finalCallback, closeDatabaseConnection]
  have hcc1 : closeDatabaseConnection (closeDatabaseConnection conn).1 =
      (ConnState.disconnected, false) := by
    cases conn <;> rfl
  cases q with
  | some err =>
    refine ⟨by simp [AuthExpressStore.set, hck], by simp [AuthExpressStore.touch, hck],
      by simp [AuthExpressStore.destroy],
      ⟨by simp [AuthExpressStore.get], none, by simp [AuthExpressStore.get], fun _ => rfl⟩,
      ⟨by simp [AuthExpressStore.all], none, by simp [AuthExpressStore.all], fun _ => rfl⟩,
      ⟨by simp [AuthExpressStore.expired], none, by simp [AuthExpressStore.expired],
        fun _ => rfl⟩,
      ⟨by simp [AuthExpressStore.length], none, by simp [AuthExpressStore.length],
        fun _ => rfl⟩,
      ⟨by simp [AuthExpressStore.expiredLength], none,
        by simp [AuthExpressStore.expiredLength], fun _ => rfl⟩,
      by simp [AuthExpressStore.clear], by simp [AuthExpressStore.expiredClear],
      by simp [AuthExpressStore.destroyUser], by simp [AuthExpressStore.createTable],
      hfc1, hfc2, hfc3, hcc1, rfl⟩
  | none =>
    have hset : (set st db sessionID s none).closes = 1 ∧
        (set st db sessionID s none).result = .completed none none := by
      by_cases hany : db.any (fun r => r.sessionID == sessionID) = true <;>
        simp [AuthExpressStore.set, hck, hany]
    have hget : (get st db now sessionID none).closes = 1 ∧
        ∃ res, (get st db now sessionID none).result = .completed none res := by
      cases hf : db.filter (rowMatches sessionID now) with
      | nil => simp [AuthExpressStore.get, hf]
      | cons r tail =>
        cases tail with
        | nil =>
          have hrdb : r ∈ db :=
            (List.mem_filter.mp (by rw [hf]; exact List.mem_cons_self r [])).1
          have hwfr := hwf r hrdb
          cases hdata : r.data with
          | raw t => simp [Row.wellFormed, hdata] at hwfr
          | json s2 =>
            have hcs : s2.cookie.isSome = true := by
              simpa [Row.wellFormed, hdata] using hwfr
            rcases hck2 : s2.cookie with _ | ck2
            · rw [hck2] at hcs; simp at hcs
            · simp [AuthExpressStore.get, hf, hcol, hdata, hck2]
        | cons r2 t2 => simp [AuthExpressStore.get, hf]
    refine ⟨hset, by simp [AuthExpressStore.touch, hck], by simp [AuthExpressStore.destroy],
      ⟨hget.1, ?_⟩,
      ⟨by simp [AuthExpressStore.all], ?_⟩, ⟨by simp [AuthExpressStore.expired], ?_⟩,
      ⟨by simp [AuthExpressStore.length], ?_⟩,
      ⟨by simp [AuthExpressStore.expiredLength], ?_⟩,
      by simp [AuthExpressStore.clear], by simp [AuthExpressStore.expiredClear],
      by simp [AuthExpressStore.destroyUser], by simp [AuthExpressStore.createTable],
      hfc1, hfc2, hfc3, hcc1, rfl⟩
    · obtain ⟨res, hres⟩ := hget.2
      exact ⟨res, hres, by simp⟩
    · exact ⟨_, rfl, by simp⟩
    · exact ⟨_, rfl, by simp⟩
    · exact ⟨_, rfl, by simp⟩
    · exact ⟨_, rfl, by simp⟩

/-- Witness for C7 at concrete inputs: a successful set over a one-row table
closes the connection exactly once and completes with no error and no data. -/
theorem ops_close_once_witness :
    (set defaultSettings [rowA] "sid1" sessA none).closes = 1 ∧
    (set defaultSettings [rowA] "sid1" sessA none).result = .completed none none :=
  (ops_close_once_then_callback defaultSettings [rowA] 0 "sid1" "alice" sessA
    ⟨2000⟩ none ConnState.connected none none rfl rfl (by decide)).1

/-- C8 counterexample: a port supplied as the caller option string 3306 is
coercible to an integer, yet construction throws the ConfigurationError for
the port field with actual type string, because part_000 lines 128 to 133
check typeof number rather than coercibility. -/
theorem construct_rejects_coercible_port :
    construct ⟨none, none, none, none, none⟩ (some { port := JSVal.str "3306" }) =
      .error ⟨"port", "string"⟩ := rfl

/-- C8 amended: construction succeeds synchronously when the resolved host,
user, password, database, tableName and column names are strings and the
resolved port is a JS number, the port being stored through parseInt as an
integer; the DATABASE_PORT environment variable is parseInt-coerced before
validation, so a digit string there is accepted, but a numeric string passed
as the port caller option is rejected with a ConfigurationError naming the
port field and its actual type string. -/
theorem construct_validation (env : Env) (opts : Option ConfigOptions)
    (hhost : ∃ v, (resolveSettings env opts).host = .str v)
    (huser : ∃ v, (resolveSettings env opts).user = .str v)
    (hpassword : ∃ v, (resolveSettings env opts).password = .str v)
    (hdatabase : ∃ v, (resolveSettings env opts).database = .str v)
    (htable : ∃ v, (resolveSettings env opts).tableName = .str v)
    (hcs : ∃ v, (resolveSettings env opts).colSessionID = .str v)
    (hce : ∃ v, (resolveSettings env opts).colExpires = .str v)
    (hcd : ∃ v, (resolveSettings env opts).colData = .str v)
    (hcu : ∃ v, (resolveSettings env opts).colUser = .str v) :
    (∀ k : Int, (resolveSettings env opts).port = .num k →
      ∃ stg, construct env opts = .ok stg ∧ stg.port = .num k) ∧
    (∀ p : String, (resolveSettings env opts).port = .str p →
      construct env opts = .error ⟨"port", "string"⟩) := by
  obtain ⟨vh, eh⟩ := hhost
  obtain ⟨vu, eu⟩ := huser
  obtain ⟨vp, ep⟩ := hpassword
  obtain ⟨vd, ed⟩ := hdatabase
  obtain ⟨vt, et⟩ := htable
  obtain ⟨v1, e1⟩ := hcs
  obtain ⟨v2, e2⟩ := hce
  obtain ⟨v3, e3⟩ := hcd
  obtain ⟨v4, e4⟩ := hcu
  constructor
  · intro k hk
    have hok : construct env opts =
        .ok ⟨vh, .num k, vu, vp, vd, vt, v1, v2, v3, v4⟩ := by
      unfold construct sanitizeConfiguration
      rw [eh, hk, eu, ep, ed, et, e1, e2, e3, e4]
      rfl
    exact ⟨⟨vh, .num k, vu, vp, vd, vt, v1, v2, v3, v4⟩, hok, rfl⟩
  · intro p hp
    unfold construct sanitizeConfiguration
    rw [eh, hp]
    rfl

/-- Witness for C8 at concrete inputs: a digit string in the DATABASE_PORT
environment variable is parseInt-coerced and accepted, stored as the
integer 4000. -/
theorem construct_validation_witness :
    ∃ stg, construct ⟨none, some "4000", none, none, none⟩ none = .ok stg ∧
      stg.port = JSVal.num 4000 :=
  (construct_validation ⟨none, some "4000", none, none, none⟩ none
    ⟨"localhost", rfl⟩ ⟨"auth_express_mysql_test_user", rfl⟩
    ⟨"password123456", rfl⟩ ⟨"auth_express_mysql_testing", rfl⟩
    ⟨"SESSIONS", rfl⟩ ⟨"SESSION_ID", rfl⟩ ⟨"EXPIRES", rfl⟩ ⟨"DATA", rfl⟩
    ⟨"USER", rfl⟩).1 4000 rfl

/-- C9 counterexample: a set whose payload carries no passport user reference
succeeds and stores the row.  The bound NULL meets the NOT NULL user column
declared by createTable, but because the statement of set is an INSERT IGNORE
the violation is downgraded to a warning and the implicit varchar default, the
empty string, is inserted; no error reaches the continuation and the session
is stored, against the claim that the insert is rejected. -/
theorem set_missing_user_still_stored :
    (set defaultSettings [] "abc" noUserSession none).result =
      .completed none none ∧
    (set defaultSettings [] "abc" noUserSession none).db =
      [⟨"abc", .json noUserSession, 2000, ""⟩] := ⟨rfl, rfl⟩

/-- C9 amended: for every payload with a cookie but no passport user and every
session ID with no pre-existing row, set binds NULL for the NOT NULL user
column, yet because the statement is an INSERT IGNORE the database inserts the
implicit default empty string instead of rejecting the row: the session is
stored and the continuation receives no error. -/
theorem set_null_user_inserts_default (st : Settings) (db : Db)
    (sessionID : String) (s : Session) (ck : Cookie) (hck : s.cookie = some ck)
    (hu : s.passportUser = none) (hfresh : ∀ r ∈ db, r.sessionID ≠ sessionID) :
    (set st db sessionID s none).result = .completed none none ∧
    (set st db sessionID s none).db =
      db ++ [⟨sessionID, .json s, ck.expires, ""⟩] := by
  have h1 := set_fresh st s ck hck hfresh
  simp [h1, hu]

/-- Witness for C9 at concrete inputs. -/
theorem set_null_user_witness :
    (set defaultSettings [] "xyz" noUserSession none).db =
      [⟨"xyz", .json noUserSession, 2000, ""⟩] := by
  have h := set_null_user_inserts_default defaultSettings [] "xyz" noUserSession
    ⟨2000⟩ rfl rfl (by simp)
  simpa using h.2

/-- C10: get reads the literal DATA property of the fetched row object
(part_000 line 334) no matter which data column name was configured, so under
settings whose data column is not named DATA the success branch never hands a
payload to the continuation, and on an existing unexpired session it throws
the SyntaxError of JSON.parse applied to undefined. -/
theorem get_wrong_data_column (st : Settings) (db : Db) (now : Int)
    (sessionID : String) (qerr : Option QueryError)
    (hcol : st.colData ≠ "DATA") :
    (∀ e res, (get st db now sessionID qerr).result = .completed e res →
      res = none) ∧
    (∀ r, qerr = none → db.filter (rowMatches sessionID now) = [r] →
      (get st db now sessionID qerr).result =
        .threw (.parseError "undefined is not valid JSON")) := by
  constructor
  · intro e res h
    cases qerr with
    | some e2 =>
      simp [AuthExpressStore.get] at h
      exact h.2.symm
    | none =>
      cases hf : db.filter (rowMatches sessionID now) with
      | nil =>
        simp [AuthExpressStore.get, hf] at h
        exact h.2.symm
      | cons r tail =>
        cases tail with
        | nil => simp [AuthExpressStore.get, hf, hcol] at h
        | cons r2 t2 =>
          simp [AuthExpressStore.get, hf] at h
          exact h.2.symm
  · intro r hq hf
    subst hq
    simp [AuthExpressStore.get, hf, hcol]

/-- Witness for C10 at concrete inputs: with the data column renamed, a get on
an existing unexpired session throws instead of returning the payload. -/
theorem get_wrong_data_column_witness :
    (get altColumnSettings [rowA] 0 "sid1" none).result =
      .threw (.parseError "undefined is not valid JSON") :=
  (get_wrong_data_column altColumnSettings [rowA] 0 "sid1" none (by decide)).2
    rowA rfl (by decide)

end AuthExpressMysql
